import Mathlib

/-!
Shallow embedding of the hybrid-betting-ml core: the feature-derivation
functions (`feature_engineering.py`), the scoring engine
(`hybrid_predictor.py`), the prediction ledger (`database.py`) and the
scan scheduler (`real_time_monitor.py`), together with theorems settling
the specification claims about them.

Match scores and team names are modelled with `Option` because the source
reads them with `dict.get`, which yields `None` when a key is missing.
Floating-point numbers are modelled as real numbers.
-/

namespace HybridML

/-- A raw match record as consumed by `FeatureEngineer`: team names and the
two full-time scores may each be absent (`m.get(...)` returning `None`). -/
structure MatchRec where
  homeName : Option String
  awayName : Option String
  scoreHome : Option Int
  scoreAway : Option Int
  deriving DecidableEq, Repr

/-- The `self.league_avg_goals` dictionary lookup with default 2.75
(`self.league_avg_goals.get(league, 2.75)`). -/
noncomputable def league_avg_lookup (league : String) : ℝ :=
  if league = "Premier League" then 2.82
  else if league = "La Liga" then 2.63
  else if league = "Serie A" then 2.89
  else if league = "Bundesliga" then 3.11
  else if league = "Ligue 1" then 2.71
  else 2.75

/-- Mean of a list of integers as `np.mean`, guarded by the caller's
`if goals else 0.0` (the guard is part of each source function). -/
noncomputable def intMean (l : List Int) : ℝ :=
  if l = [] then 0 else (l.sum : ℝ) / (l.length : ℝ)

/-- Goals scored by `team` in each match of the window, attributed by the
side on which the team appears; matches with a missing score (or where the
team appears on neither side) contribute nothing (`_goals_avg` loop). -/
def goalsFor : List MatchRec → String → List Int
  | [], _ => []
  | m :: ms, team =>
    (if m.homeName = some team then
       (match m.scoreHome with | some g => [g] | none => [])
     else if m.awayName = some team then
       (match m.scoreAway with | some g => [g] | none => [])
     else []) ++ goalsFor ms team

/-- The `_goals_avg` helper: mean of the goals scored by `team`, 0.0 when
no goals were collected. -/
noncomputable def goals_avg (ms : List MatchRec) (team : String) : ℝ :=
  intMean (goalsFor ms team)

/-- Goals conceded by `team` in each match of the window (`_goals_conceded_avg`
loop): the opposite side's score, skipping missing scores. -/
def goalsAgainst : List MatchRec → String → List Int
  | [], _ => []
  | m :: ms, team =>
    (if m.homeName = some team then
       (match m.scoreAway with | some g => [g] | none => [])
     else if m.awayName = some team then
       (match m.scoreHome with | some g => [g] | none => [])
     else []) ++ goalsAgainst ms team

/-- The `_goals_conceded_avg` helper. -/
noncomputable def goals_conceded_avg (ms : List MatchRec) (team : String) : ℝ :=
  intMean (goalsAgainst ms team)

/-- Points earned by `team` in one match (`_points_form` loop body):
3 for a win, 1 for a draw, 0 otherwise; a match with a missing score
component is skipped (`continue`). -/
def matchPoints (m : MatchRec) (team : String) : Int :=
  match m.scoreHome, m.scoreAway with
  | some hg, some ag =>
    if m.homeName = some team then
      (if hg > ag then 3 else if hg = ag then 1 else 0)
    else if m.awayName = some team then
      (if ag > hg then 3 else if ag = hg then 1 else 0)
    else 0
  | _, _ => 0

/-- The `_points_form` helper: total points over the window. -/
def points_form (ms : List MatchRec) (team : String) : Int :=
  (ms.map (fun m => matchPoints m team)).sum

/-- Scored/conceded pairs for `team` used by `_goal_difference`: both score
components must be present, sides attributed by where the team appears. -/
def gdPairs : List MatchRec → String → List (Int × Int)
  | [], _ => []
  | m :: ms, team =>
    (if m.homeName = some team then
       (match m.scoreHome, m.scoreAway with
        | some hg, some ag => [(hg, ag)]
        | _, _ => [])
     else if m.awayName = some team then
       (match m.scoreHome, m.scoreAway with
        | some hg, some ag => [(ag, hg)]
        | _, _ => [])
     else []) ++ gdPairs ms team

/-- The `_goal_difference` helper: `sum(scored) - sum(conceded) if scored else 0`. -/
def goal_difference (ms : List MatchRec) (team : String) : Int :=
  let pairs := gdPairs ms team
  if pairs = [] then 0
  else (pairs.map Prod.fst).sum - (pairs.map Prod.snd).sum

/-- Head-to-head filter of `_h2h_goals_avg` / `_h2h_btts_rate`: the two named
teams faced each other in either venue orientation. -/
def isH2H (m : MatchRec) (home_team away_team : String) : Bool :=
  (m.homeName = some home_team ∧ m.awayName = some away_team) ∨
  (m.homeName = some away_team ∧ m.awayName = some home_team)

/-- The `_h2h_goals_avg` helper: mean combined goals over head-to-head
meetings with both scores present, default 2.75 when none. -/
noncomputable def h2h_goals_avg (home_team away_team : String)
    (all_matches : List MatchRec) : ℝ :=
  let h2h := all_matches.filter (fun m => isH2H m home_team away_team)
  let goals := h2h.filterMap (fun m =>
    match m.scoreHome, m.scoreAway with
    | some hg, some ag => some (hg + ag)
    | _, _ => none)
  if goals = [] then 2.75 else intMean goals

/-- The `_h2h_btts_rate` helper: fraction of head-to-head meetings in which
both sides scored, with missing score components defaulted to 0
(`.get('home', 0)`); default 0.5 when there are no meetings. -/
noncomputable def h2h_btts_rate (home_team away_team : String)
    (all_matches : List MatchRec) : ℝ :=
  let h2h := all_matches.filter (fun m => isH2H m home_team away_team)
  let btts_count :=
    (h2h.filter (fun m => m.scoreHome.getD 0 > 0 ∧ m.scoreAway.getD 0 > 0)).length
  if h2h = [] then 0.5 else (btts_count : ℝ) / (h2h.length : ℝ)

/-- The `_over_rate` helper: fraction of matches whose combined goals exceed
the threshold, missing score components defaulted to 0; 0.0 on an empty
window. -/
noncomputable def over_rate (ms : List MatchRec) (threshold : ℝ) : ℝ :=
  let count :=
    (ms.filter (fun m =>
      ((m.scoreHome.getD 0 + m.scoreAway.getD 0 : Int) : ℝ) > threshold)).length
  if ms = [] then 0 else (count : ℝ) / (ms.length : ℝ)

/-- The `_btts_rate` helper: fraction of matches in which both sides scored,
missing score components defaulted to 0; 0.0 on an empty window. -/
noncomputable def btts_rate (ms : List MatchRec) (_team : String) : ℝ :=
  let count :=
    (ms.filter (fun m => m.scoreHome.getD 0 > 0 ∧ m.scoreAway.getD 0 > 0)).length
  if ms = [] then 0 else (count : ℝ) / (ms.length : ℝ)

/-- Win test of the `_win_rate` loop: a match with a missing score component
is skipped for the numerator; otherwise `team` won on the side it is assumed
to occupy (`home == team_name` or the complementary branch). -/
def isWin (m : MatchRec) (team : String) : Bool :=
  match m.scoreHome, m.scoreAway with
  | some hg, some ag =>
    (m.homeName = some team ∧ hg > ag) ∨ (¬ m.homeName = some team ∧ ag > hg)
  | _, _ => false

/-- The `_win_rate` helper: wins over `len(matches)` — the denominator counts
every match of the window, including those with missing scores. -/
noncomputable def win_rate (ms : List MatchRec) (team : String) : ℝ :=
  let wins := (ms.filter (fun m => isWin m team)).length
  if ms = [] then 0 else (wins : ℝ) / (ms.length : ℝ)

/-- Clean-sheet test of the `_clean_sheet_rate` loop, with missing score
components defaulted to 0. -/
def isCleanSheet (m : MatchRec) (team : String) : Bool :=
  if m.homeName = some team then m.scoreAway.getD 0 = 0
  else m.scoreHome.getD 0 = 0

/-- The `_clean_sheet_rate` helper: clean sheets over `len(matches)`,
0.0 on an empty window. -/
noncomputable def clean_sheet_rate (ms : List MatchRec) (team : String) : ℝ :=
  let cs := (ms.filter (fun m => isCleanSheet m team)).length
  if ms = [] then 0 else (cs : ℝ) / (ms.length : ℝ)

/-- The exact Poisson point-mass function `poisson.pmf(k, lam)`. -/
noncomputable def poissonPmf (k : ℕ) (lam : ℝ) : ℝ :=
  Real.exp (-lam) * lam ^ k / (Nat.factorial k : ℝ)

/-- The `_poisson_over_x` helper: `1 - prob_under`, where `prob_under`
accumulates `pmf(h, λ_home) * pmf(a, λ_away)` over the double loop
`for h in range(int(threshold) + 2): for a in range(int(threshold) + 2 - h)`
guarded by `h + a <= threshold`. -/
noncomputable def poisson_over_x (lambda_home lambda_away threshold : ℝ) : ℝ :=
  1 - ∑ h ∈ Finset.range (Int.toNat ⌊threshold⌋ + 2),
        ∑ a ∈ Finset.range (Int.toNat ⌊threshold⌋ + 2 - h),
          if ((h : ℝ) + (a : ℝ) ≤ threshold)
          then poissonPmf h lambda_home * poissonPmf a lambda_away
          else 0

/-- The 36-field feature vector produced by `FeatureEngineer.extract_features`,
one named field per dictionary entry, in source order. -/
structure Features where
  home_goals_avg_5 : ℝ
  away_goals_avg_5 : ℝ
  home_goals_avg_10 : ℝ
  away_goals_avg_10 : ℝ
  home_points_form_3 : ℝ
  away_points_form_3 : ℝ
  home_points_form_5 : ℝ
  home_attack_strength : ℝ
  away_attack_strength : ℝ
  home_defense_strength : ℝ
  away_defense_strength : ℝ
  home_goals_trend : ℝ
  away_goals_trend : ℝ
  home_conceded_trend : ℝ
  away_conceded_trend : ℝ
  home_advantage : ℝ
  league_avg_goals : ℝ
  home_rest_days : ℝ
  away_rest_days : ℝ
  h2h_goals_avg : ℝ
  h2h_btts_rate : ℝ
  home_goal_diff : ℝ
  away_goal_diff : ℝ
  lambda_home : ℝ
  lambda_away : ℝ
  expected_total_goals : ℝ
  poisson_over25 : ℝ
  home_wins_pct : ℝ
  away_wins_pct : ℝ
  home_over25_rate : ℝ
  away_over25_rate : ℝ
  home_btts_rate : ℝ
  away_btts_rate : ℝ
  home_clean_sheet_rate : ℝ
  away_clean_sheet_rate : ℝ
  combined_form : ℝ

/-- The key/value list of a feature vector in the dictionary's insertion
order (`list(features_dict.values())` relies on exactly this order). -/
def Features.toList (f : Features) : List (String × ℝ) :=
  [("home_goals_avg_5", f.home_goals_avg_5),
   ("away_goals_avg_5", f.away_goals_avg_5),
   ("home_goals_avg_10", f.home_goals_avg_10),
   ("away_goals_avg_10", f.away_goals_avg_10),
   ("home_points_form_3", f.home_points_form_3),
   ("away_points_form_3", f.away_points_form_3),
   ("home_points_form_5", f.home_points_form_5),
   ("home_attack_strength", f.home_attack_strength),
   ("away_attack_strength", f.away_attack_strength),
   ("home_defense_strength", f.home_defense_strength),
   ("away_defense_strength", f.away_defense_strength),
   ("home_goals_trend", f.home_goals_trend),
   ("away_goals_trend", f.away_goals_trend),
   ("home_conceded_trend", f.home_conceded_trend),
   ("away_conceded_trend", f.away_conceded_trend),
   ("home_advantage", f.home_advantage),
   ("league_avg_goals", f.league_avg_goals),
   ("home_rest_days", f.home_rest_days),
   ("away_rest_days", f.away_rest_days),
   ("h2h_goals_avg", f.h2h_goals_avg),
   ("h2h_btts_rate", f.h2h_btts_rate),
   ("home_goal_diff", f.home_goal_diff),
   ("away_goal_diff", f.away_goal_diff),
   ("lambda_home", f.lambda_home),
   ("lambda_away", f.lambda_away),
   ("expected_total_goals", f.expected_total_goals),
   ("poisson_over25", f.poisson_over25),
   ("home_wins_pct", f.home_wins_pct),
   ("away_wins_pct", f.away_wins_pct),
   ("home_over25_rate", f.home_over25_rate),
   ("away_over25_rate", f.away_over25_rate),
   ("home_btts_rate", f.home_btts_rate),
   ("away_btts_rate", f.away_btts_rate),
   ("home_clean_sheet_rate", f.home_clean_sheet_rate),
   ("away_clean_sheet_rate", f.away_clean_sheet_rate),
   ("combined_form", f.combined_form)]

/-- The `FeatureEngineer.extract_features` pipeline, translated line by line:
window slicing with `take`/`drop`, head-to-head statistics over the
concatenated histories, Poisson parameters from the strength features, and
the advanced rate statistics over the last-10 window. The `kickoff_date`
argument is accepted and unused, as in the source. -/
noncomputable def extract_features (home_team away_team : String)
    (home_history away_history : List MatchRec)
    (league : String) (_kickoff_date : String) : Features :=
  let home_goals_avg_5 := goals_avg (home_history.take 5) home_team
  let away_goals_avg_5 := goals_avg (away_history.take 5) away_team
  let home_goals_avg_10 := goals_avg (home_history.take 10) home_team
  let away_goals_avg_10 := goals_avg (away_history.take 10) away_team
  let home_points_form_3 := ((points_form (home_history.take 3) home_team : Int) : ℝ)
  let away_points_form_3 := ((points_form (away_history.take 3) away_team : Int) : ℝ)
  let home_points_form_5 := ((points_form (home_history.take 5) home_team : Int) : ℝ)
  let league_avg := league_avg_lookup league
  let home_attack_strength := home_goals_avg_10 / (league_avg / 2)
  let away_attack_strength := away_goals_avg_10 / (league_avg / 2)
  let home_defense_strength :=
    goals_conceded_avg (home_history.take 10) home_team / (league_avg / 2)
  let away_defense_strength :=
    goals_conceded_avg (away_history.take 10) away_team / (league_avg / 2)
  let recent_5 := goals_avg (home_history.take 5) home_team
  let previous_5 := goals_avg ((home_history.drop 5).take 5) home_team
  let home_goals_trend := recent_5 - previous_5
  let recent_5_a := goals_avg (away_history.take 5) away_team
  let previous_5_a := goals_avg ((away_history.drop 5).take 5) away_team
  let away_goals_trend := recent_5_a - previous_5_a
  let home_conceded_trend :=
    goals_conceded_avg (home_history.take 5) home_team -
      goals_conceded_avg ((home_history.drop 5).take 5) home_team
  let away_conceded_trend :=
    goals_conceded_avg (away_history.take 5) away_team -
      goals_conceded_avg ((away_history.drop 5).take 5) away_team
  let h2h_goals := h2h_goals_avg home_team away_team (home_history ++ away_history)
  let h2h_btts := h2h_btts_rate home_team away_team (home_history ++ away_history)
  let home_goal_diff := ((goal_difference (home_history.take 10) home_team : Int) : ℝ)
  let away_goal_diff := ((goal_difference (away_history.take 10) away_team : Int) : ℝ)
  let lambda_home := home_attack_strength * away_defense_strength * (league_avg / 2)
  let lambda_away := away_attack_strength * home_defense_strength * (league_avg / 2)
  let expected_total_goals := lambda_home + lambda_away
  let poisson_over25 := poisson_over_x lambda_home lambda_away 2.5
  let home_wins_pct := win_rate (home_history.take 10) home_team
  let away_wins_pct := win_rate (away_history.take 10) away_team
  let home_over25_rate := over_rate (home_history.take 10) 2.5
  let away_over25_rate := over_rate (away_history.take 10) 2.5
  let home_btts := btts_rate (home_history.take 10) home_team
  let away_btts := btts_rate (away_history.take 10) away_team
  let home_clean_sheet_rate := clean_sheet_rate (home_history.take 10) home_team
  let away_clean_sheet_rate := clean_sheet_rate (away_history.take 10) away_team
  let combined_form := (home_points_form_5 + away_points_form_3) / 2
  { home_goals_avg_5 := home_goals_avg_5
    away_goals_avg_5 := away_goals_avg_5
    home_goals_avg_10 := home_goals_avg_10
    away_goals_avg_10 := away_goals_avg_10
    home_points_form_3 := home_points_form_3
    away_points_form_3 := away_points_form_3
    home_points_form_5 := home_points_form_5
    home_attack_strength := home_attack_strength
    away_attack_strength := away_attack_strength
    home_defense_strength := home_defense_strength
    away_defense_strength := away_defense_strength
    home_goals_trend := home_goals_trend
    away_goals_trend := away_goals_trend
    home_conceded_trend := home_conceded_trend
    away_conceded_trend := away_conceded_trend
    home_advantage := 1.0
    league_avg_goals := league_avg
    home_rest_days := 7
    away_rest_days := 7
    h2h_goals_avg := h2h_goals
    h2h_btts_rate := h2h_btts
    home_goal_diff := home_goal_diff
    away_goal_diff := away_goal_diff
    lambda_home := lambda_home
    lambda_away := lambda_away
    expected_total_goals := expected_total_goals
    poisson_over25 := poisson_over25
    home_wins_pct := home_wins_pct
    away_wins_pct := away_wins_pct
    home_over25_rate := home_over25_rate
    away_over25_rate := away_over25_rate
    home_btts_rate := home_btts
    away_btts_rate := away_btts
    home_clean_sheet_rate := home_clean_sheet_rate
    away_clean_sheet_rate := away_clean_sheet_rate
    combined_form := combined_form }

/-- The `HybridPredictor.predict_btts` closed form: each side scores with
probability `1 - pmf(0, λ·m)`, the product is dampened by 0.92 whenever
either raw rate is below 1.0. -/
noncomputable def predict_btts (lambda_home lambda_away context_multiplier : ℝ) : ℝ :=
  let p_home_scores := 1 - poissonPmf 0 (lambda_home * context_multiplier)
  let p_away_scores := 1 - poissonPmf 0 (lambda_away * context_multiplier)
  let p_btts := p_home_scores * p_away_scores
  if lambda_home < 1.0 ∨ lambda_away < 1.0 then p_btts * 0.92 else p_btts

/-- Error raised inside a fixture's processing: `predict_over25` raising
`ValueError("Model not trained!")` when no model is loaded, or a malformed
fixture record raising during parsing. -/
inductive PerFixtureErr where
  | modelNotLoaded
  | malformedData
  deriving DecidableEq, Repr

/-- The result dictionary of `HybridPredictor.predict_over25`. -/
structure Over25Result where
  probability : ℝ
  confidence : String
  lower_bound : ℝ
  upper_bound : ℝ

/-- The `HybridPredictor.predict_over25` operation over the loaded model: it
raises when `self.over25_model is None`, otherwise reads the calibrated
ensemble probability (the model is the abstract black-box function) and
attaches the confidence band and the clamped ±0.08 interval. -/
noncomputable def predict_over25 (model : Option (Features → ℝ)) (v : Features) :
    Except PerFixtureErr Over25Result :=
  match model with
  | none => .error .modelNotLoaded
  | some f =>
    let proba := f v
    let lower := max 0.0 (proba - 0.08)
    let upper := min 1.0 (proba + 0.08)
    let confidence :=
      if proba ≥ 0.75 then "High" else if proba ≥ 0.65 then "Medium" else "Low"
    .ok { probability := proba, confidence := confidence,
          lower_bound := lower, upper_bound := upper }

/-- The prediction dictionary built by `RealTimeMonitor._predict_match` and
passed to `Database.save_prediction`. -/
structure Prediction where
  fixture_id : Int
  home_team : String
  away_team : String
  league : String
  kickoff_utc : String
  over25_prob : ℝ
  over25_confidence : String
  btts_prob : ℝ
  expected_goals : ℝ
  home_form : ℝ
  away_form : ℝ

/-- A row of the `predictions` table: the autoincrement `id`, every column of
the insert plus the `status` column with its `DEFAULT 'PENDING'`. -/
structure PredRow where
  rowId : ℕ
  fixture_id : Int
  predicted_at : String
  home_team : String
  away_team : String
  league : String
  kickoff_utc : String
  over25_prob : ℝ
  over25_confidence : String
  btts_prob : ℝ
  expected_goals : ℝ
  home_form : ℝ
  away_form : ℝ
  status : String

/-- A row of the `results` table written by `Database.save_result`. -/
structure ResultRow where
  fixture_id : Int
  home_goals : Int
  away_goals : Int
  over25_actual : Int
  btts_actual : Int
  recorded_at : String

/-- The SQLite database state: both tables plus the next autoincrement id. -/
structure DB where
  preds : List PredRow
  results : List ResultRow
  nextId : ℕ

/-- A freshly initialised database (`Database._init_db` creates empty tables). -/
def emptyDB : DB := { preds := [], results := [], nextId := 1 }

/-- The row inserted by `save_prediction`: the supplied columns take the
prediction's values, `predicted_at` the current timestamp, and the absent
`status` column its schema default `'PENDING'`. -/
def predRowOf (rid : ℕ) (now : String) (p : Prediction) : PredRow :=
  { rowId := rid
    fixture_id := p.fixture_id
    predicted_at := now
    home_team := p.home_team
    away_team := p.away_team
    league := p.league
    kickoff_utc := p.kickoff_utc
    over25_prob := p.over25_prob
    over25_confidence := p.over25_confidence
    btts_prob := p.btts_prob
    expected_goals := p.expected_goals
    home_form := p.home_form
    away_form := p.away_form
    status := "PENDING" }

/-- `Database.save_prediction`: `INSERT OR REPLACE` keyed by the
`fixture_id UNIQUE` constraint — every conflicting row is deleted and the
new row is inserted with a fresh id. -/
def save_prediction (db : DB) (now : String) (p : Prediction) : DB :=
  { preds := db.preds.filter (fun r => decide (r.fixture_id ≠ p.fixture_id)) ++
      [predRowOf db.nextId now p]
    results := db.results
    nextId := db.nextId + 1 }

/-- `Database.prediction_exists`: `COUNT(*) > 0` over rows with the given
fixture identifier. -/
def prediction_exists (db : DB) (fid : Int) : Bool :=
  db.preds.any (fun r => decide (r.fixture_id = fid))

/-- `Database.save_result`: derives the two ground-truth labels, appends a
`results` row and transitions the prediction's `status` to `'FINISHED'`. -/
def save_result (db : DB) (now : String) (fid home_goals away_goals : Int) : DB :=
  let over25 : Int := if home_goals + away_goals > 2 then 1 else 0
  let btts : Int := if home_goals > 0 ∧ away_goals > 0 then 1 else 0
  { preds := db.preds.map (fun r =>
      if r.fixture_id = fid then { r with status := "FINISHED" } else r)
    results := db.results ++
      [{ fixture_id := fid, home_goals := home_goals, away_goals := away_goals,
         over25_actual := over25, btts_actual := btts, recorded_at := now }]
    nextId := db.nextId }

/-- An upcoming fixture as returned by the fixture feed and examined by
`scan_upcoming_matches`. `parseOk` abstracts whether the record's fields
parse without raising (`datetime.fromisoformat(match['utcDate'] ...)` on a
malformed record raises); `kickoffFuture` abstracts the comparison
`kickoff > now_utc` of the parsed kickoff. -/
structure UpFixture where
  fid : Int
  status : String
  parseOk : Bool
  kickoffFuture : Bool
  homeId : Int
  awayId : Int
  homeName : String
  awayName : String
  utcDate : String

/-- The monitor state after `RealTimeMonitor.__init__`: the loaded model (or
`none`), the two configured acceptance thresholds, the history-fetch
capability (`_fetch_team_history` already swallows transport errors and
returns an empty list), and the timestamp source for `predicted_at`. -/
structure Monitor where
  model : Option (Features → ℝ)
  over25Min : ℝ
  bttsMin : ℝ
  fetchHist : Int → List MatchRec
  now : String

/-- Observable events of a scan: a fixture being scored by the ensemble, a
prediction being persisted, or a per-fixture error being caught and logged. -/
inductive Ev where
  | scored (fid : Int)
  | persisted (fid : Int)
  | errLogged (fid : Int)
  deriving DecidableEq, Repr

/-- Occurrences of `scored fid` in a trace. -/
def scoredCount (evs : List Ev) (fid : Int) : ℕ :=
  (evs.filter (fun e => decide (e = Ev.scored fid))).length

/-- Occurrences of `persisted fid` in a trace. -/
def persistedCount (evs : List Ev) (fid : Int) : ℕ :=
  (evs.filter (fun e => decide (e = Ev.persisted fid))).length

/-- `RealTimeMonitor._predict_match`: fetch both histories (empty history ⇒
`None`), extract features, score the threshold event (raising when no model
is loaded), score both-teams-score, read both configured thresholds, and
filter on the over-2.5 probability alone. The returned trace records the
scoring event. -/
noncomputable def predictMatch (mon : Monitor) (league : String) (m : UpFixture) :
    Except PerFixtureErr (Option Prediction) × List Ev :=
  let home_history := mon.fetchHist m.homeId
  let away_history := mon.fetchHist m.awayId
  if home_history = [] ∨ away_history = [] then (.ok none, [])
  else
    let features := extract_features m.homeName m.awayName
      home_history away_history league m.utcDate
    match predict_over25 mon.model features with
    | .error e => (.error e, [])
    | .ok over25_result =>
      let btts_prob := predict_btts features.lambda_home features.lambda_away 1.0
      let min_over25 := mon.over25Min
      let _min_btts := mon.bttsMin
      if over25_result.probability < min_over25 then (.ok none, [.scored m.fid])
      else
        (.ok (some
          { fixture_id := m.fid
            home_team := m.homeName
            away_team := m.awayName
            league := league
            kickoff_utc := m.utcDate
            over25_prob := over25_result.probability
            over25_confidence := over25_result.confidence
            btts_prob := btts_prob
            expected_goals := features.expected_total_goals
            home_form := features.home_points_form_5
            away_form := features.away_points_form_3 }), [.scored m.fid])

/-- One iteration of the `for match in matches` loop of
`scan_upcoming_matches`: the status filter, then inside the `try` block the
kickoff parse (a malformed record is caught and logged), the past-kickoff
skip, the ledger dedup check, prediction, and the conditional persist; any
raised per-fixture error is caught, logged and skipped. -/
noncomputable def processFixture (mon : Monitor) (league : String)
    (acc : DB × List Ev) (m : UpFixture) : DB × List Ev :=
  if ¬ (m.status = "SCHEDULED" ∨ m.status = "TIMED") then acc
  else if ¬ m.parseOk then (acc.1, acc.2 ++ [.errLogged m.fid])
  else if ¬ m.kickoffFuture then acc
  else if prediction_exists acc.1 m.fid then acc
  else
    match predictMatch mon league m with
    | (.error _, evs) => (acc.1, acc.2 ++ evs ++ [.errLogged m.fid])
    | (.ok none, evs) => (acc.1, acc.2 ++ evs)
    | (.ok (some p), evs) =>
      (save_prediction acc.1 mon.now p, acc.2 ++ evs ++ [.persisted p.fixture_id])

/-- The fixture loop of one competition. -/
noncomputable def scanMatches (mon : Monitor) (league : String) :
    DB × List Ev → List UpFixture → DB × List Ev
  | acc, [] => acc
  | acc, m :: ms => scanMatches mon league (processFixture mon league acc m) ms

/-- The competition loop of one scan cycle (`for code, info in leagues`);
each competition supplies its name and its fetched fixture list (a failed
fixture fetch yields `[]`, which the loop traverses harmlessly). -/
noncomputable def scanComps (mon : Monitor) :
    DB × List Ev → List (String × List UpFixture) → DB × List Ev
  | acc, [] => acc
  | acc, (league, fixtures) :: rest =>
    scanComps mon (scanMatches mon league acc fixtures) rest

/-- Consecutive scan cycles of `monitor_loop`, each given the fixture data
its fetches return. -/
noncomputable def runCycles (mon : Monitor) :
    DB × List Ev → List (List (String × List UpFixture)) → DB × List Ev
  | acc, [] => acc
  | acc, c :: cs => runCycles mon (scanComps mon acc c) cs

/-- The warning printed by `HybridPredictor.load` when the artifact is absent. -/
def loadWarning : String := "[WARN] Pre-trained models not found. Train first!"

/-- `HybridPredictor.load`: when the artifact file is present the model is
loaded; when `joblib.load` raises `FileNotFoundError` the exception is caught,
a warning is printed, and `self.over25_model` stays `None`. -/
def loadModel (present : Bool) (artifact : Features → ℝ) :
    Option (Features → ℝ) × List String :=
  if present then (some artifact, []) else (none, [loadWarning])

/-- `RealTimeMonitor.__init__`: reads the configuration, calls
`self.predictor.load()` and constructs the monitor; it completes in both
cases, the error type records only that startup could in principle fail. -/
def monitorInit (present : Bool) (artifact : Features → ℝ)
    (over25_min btts_min : ℝ) (fetch : Int → List MatchRec) (now : String) :
    Except String Monitor :=
  .ok { model := (loadModel present artifact).1
        over25Min := over25_min
        bttsMin := btts_min
        fetchHist := fetch
        now := now }

section DatabaseClaims

/-- Claim C3: for every two predictions `p` and `q` carrying the same fixture
identifier, `insert(p)` followed by `insert(q)` leaves exactly one
`predictions` record for that identifier in the ledger, holding `q`'s values
(with the fresh autoincrement id and the second call's timestamp): the second
insert overwrites rather than duplicating. -/
theorem insert_twice_dedup (db : DB) (t1 t2 : String) (p q : Prediction)
    (h : p.fixture_id = q.fixture_id) :
    ((save_prediction (save_prediction db t1 p) t2 q).preds.filter
        (fun r => decide (r.fixture_id = q.fixture_id)))
      = [predRowOf (db.nextId + 1) t2 q] := by
  have hq : ∀ (l : List PredRow),
      ((l.filter (fun r => decide (r.fixture_id ≠ q.fixture_id))).filter
        (fun r => decide (r.fixture_id = q.fixture_id))) = [] := by
    intro l
    rw [List.filter_eq_nil_iff]
    intro r hr
    rw [List.mem_filter] at hr
    simp only [decide_eq_true_eq] at hr ⊢
    exact hr.2
  simp [save_prediction, List.filter_append, hq, predRowOf, h]

/-- Witness for C3 at concrete predictions sharing fixture identifier 1. -/
def predA : Prediction :=
  { fixture_id := 1, home_team := "H", away_team := "A", league := "L",
    kickoff_utc := "k1", over25_prob := 0.7, over25_confidence := "Medium",
    btts_prob := 0.6, expected_goals := 3, home_form := 9, away_form := 6 }

/-- A second prediction for fixture identifier 1 with different values. -/
def predB : Prediction :=
  { fixture_id := 1, home_team := "H", away_team := "A", league := "L",
    kickoff_utc := "k2", over25_prob := 0.8, over25_confidence := "High",
    btts_prob := 0.5, expected_goals := 4, home_form := 12, away_form := 3 }

/-- Witness: C3 instantiated at two concrete predictions for fixture 1 over
the fresh database. -/
theorem insert_twice_dedup_witness :
    predA.fixture_id = predB.fixture_id ∧
    ((save_prediction (save_prediction emptyDB "t1" predA) "t2" predB).preds.filter
        (fun r => decide (r.fixture_id = predB.fixture_id)))
      = [predRowOf (emptyDB.nextId + 1) "t2" predB] :=
  ⟨rfl, insert_twice_dedup emptyDB "t1" "t2" predA predB rfl⟩

/-- Claim C10: `save_result` transitions every ledger record of the fixture
to status `FINISHED`, and a subsequent `save_prediction` for the same fixture
identifier replaces the whole row without supplying the status column, so the
record's status falls back to the default `PENDING`. -/
theorem reinsert_resets_status (db : DB) (t1 t2 : String) (fid hg ag : Int)
    (p : Prediction) (h : p.fixture_id = fid) :
    (∀ r ∈ (save_result db t1 fid hg ag).preds,
        r.fixture_id = fid → r.status = "FINISHED") ∧
    (∀ r ∈ (save_prediction (save_result db t1 fid hg ag) t2 p).preds,
        r.fixture_id = fid → r.status = "PENDING") := by
  constructor
  · intro r hr hfid
    simp only [save_result, List.mem_map] at hr
    obtain ⟨s, _, rfl⟩ := hr
    by_cases hsf : s.fixture_id = fid
    · simp [hsf]
    · rw [if_neg hsf] at hfid ⊢
      exact absurd hfid hsf
  · intro r hr hfid
    simp only [save_prediction, List.mem_append, List.mem_filter,
      List.mem_singleton, decide_eq_true_eq] at hr
    rcases hr with ⟨_, hne⟩ | rfl
    · rw [h] at hne
      exact absurd hfid hne
    · rfl

/-- Witness: C10 instantiated at a concrete ledger holding a prediction for
fixture 1, a recorded outcome 3–1, and a re-insert of the same fixture. -/
theorem reinsert_resets_status_witness :
    predA.fixture_id = 1 ∧
    ((∀ r ∈ (save_result (save_prediction emptyDB "t0" predA) "t1" 1 3 1).preds,
        r.fixture_id = 1 → r.status = "FINISHED") ∧
     (∀ r ∈ (save_prediction
          (save_result (save_prediction emptyDB "t0" predA) "t1" 1 3 1)
          "t2" predA).preds,
        r.fixture_id = 1 → r.status = "PENDING")) :=
  ⟨rfl, reinsert_resets_status (save_prediction emptyDB "t0" predA)
    "t1" "t2" 1 3 1 predA rfl⟩

end DatabaseClaims

section ScoringClaims

/-- Claim C4: for all `λ_home, λ_away ≥ 0`, the Poisson over-threshold
computation with threshold 2.5 returns exactly `1 − Σ` over all non-negative
integer pairs `(h, a)` with `h + a ≤ 2` of `Pois(h; λ_home)·Pois(a; λ_away)`,
where `Pois` is the exact Poisson point-mass function. -/
theorem poisson_over25_exact (lh la : ℝ) (hlh : 0 ≤ lh) (hla : 0 ≤ la) :
    poisson_over_x lh la 2.5 =
      1 - ∑ p ∈ (Finset.range 3 ×ˢ Finset.range 3).filter (fun p => p.1 + p.2 ≤ 2),
            poissonPmf p.1 lh * poissonPmf p.2 la := by
  have hfloor : (⌊(2.5 : ℝ)⌋ : ℤ) = 2 := by
    rw [Int.floor_eq_iff] <;> norm_num
  have h4 : Int.toNat ⌊(2.5 : ℝ)⌋ + 2 = 4 := by rw [hfloor]; rfl
  rw [poisson_over_x, h4, Finset.sum_filter, Finset.sum_product]
  norm_num [Finset.sum_range_succ]

/-- Witness: C4 at the spec's example rates `λ_home = 1.2`, `λ_away = 1.0`. -/
theorem poisson_over25_exact_witness :
    (0 : ℝ) ≤ 1.2 ∧ (0 : ℝ) ≤ 1.0 ∧
    poisson_over_x 1.2 1.0 2.5 =
      1 - ∑ p ∈ (Finset.range 3 ×ˢ Finset.range 3).filter (fun p => p.1 + p.2 ≤ 2),
            poissonPmf p.1 1.2 * poissonPmf p.2 1.0 :=
  ⟨by norm_num, by norm_num,
    poisson_over25_exact 1.2 1.0 (by norm_num) (by norm_num)⟩

/-- Nonnegativity of the per-side scoring probability `1 - e^{-x}`. -/
lemma one_sub_exp_nonneg {x : ℝ} (hx : 0 ≤ x) : 0 ≤ 1 - Real.exp (-x) := by
  have h := Real.exp_le_one_iff.mpr (neg_nonpos.mpr hx)
  linarith

/-- Upper bound of the per-side scoring probability. -/
lemma one_sub_exp_le_one (x : ℝ) : 1 - Real.exp (-x) ≤ 1 := by
  have h := Real.exp_pos (-x)
  linarith

/-- Monotonicity of the per-side scoring probability in the rate. -/
lemma one_sub_exp_mono {x y : ℝ} (h : x ≤ y) :
    1 - Real.exp (-x) ≤ 1 - Real.exp (-y) := by
  have h2 := Real.exp_le_exp.mpr (neg_le_neg h)
  linarith

/-- The `predict_btts` value at context multiplier 1.0 in closed form. -/
lemma predict_btts_eq (lh la : ℝ) :
    predict_btts lh la 1.0 =
      if lh < 1 ∨ la < 1
      then ((1 - Real.exp (-lh)) * (1 - Real.exp (-la))) * 0.92
      else (1 - Real.exp (-lh)) * (1 - Real.exp (-la)) := by
  norm_num [predict_btts, poissonPmf, Nat.factorial]

/-- Dampening respects ordering of the undampened products: if the larger
input is dampened then so is the smaller. -/
lemma damp_le_damp {p q : ℝ} (hp : 0 ≤ p) (hpq : p ≤ q) {c1 c2 : Prop}
    [Decidable c1] [Decidable c2] (himp : c2 → c1) :
    (if c1 then p * 0.92 else p) ≤ (if c2 then q * 0.92 else q) := by
  split_ifs with h1 h2 h2
  · exact mul_le_mul_of_nonneg_right hpq (by norm_num)
  · nlinarith
  · exact absurd (himp h2) h1
  · exact hpq

/-- Claim C5: for all `λ_home, λ_away ≥ 0` with context multiplier 1.0,
`predict_btts` returns a value in `[0, 1]` and is monotonically
non-decreasing in each rate, including across the boundary at rate 1.0
where the 0.92 dampening factor stops applying. -/
theorem predict_btts_range_mono (lh la : ℝ) (hlh : 0 ≤ lh) (hla : 0 ≤ la) :
    (0 ≤ predict_btts lh la 1.0 ∧ predict_btts lh la 1.0 ≤ 1) ∧
    (∀ lh', lh ≤ lh' → predict_btts lh la 1.0 ≤ predict_btts lh' la 1.0) ∧
    (∀ la', la ≤ la' → predict_btts lh la 1.0 ≤ predict_btts lh la' 1.0) := by
  have ha0 := one_sub_exp_nonneg hlh
  have ha1 := one_sub_exp_le_one lh
  have hb0 := one_sub_exp_nonneg hla
  have hb1 := one_sub_exp_le_one la
  refine ⟨⟨?_, ?_⟩, ?_, ?_⟩
  · rw [predict_btts_eq]
    split_ifs <;> nlinarith
  · rw [predict_btts_eq]
    split_ifs <;> nlinarith
  · intro lh' hle
    rw [predict_btts_eq, predict_btts_eq]
    refine damp_le_damp (mul_nonneg ha0 hb0)
      (mul_le_mul_of_nonneg_right (one_sub_exp_mono hle) hb0) ?_
    rintro (h1 | h2)
    · exact Or.inl (lt_of_le_of_lt hle h1)
    · exact Or.inr h2
  · intro la' hle
    rw [predict_btts_eq, predict_btts_eq]
    refine damp_le_damp (mul_nonneg ha0 hb0)
      (mul_le_mul_of_nonneg_left (one_sub_exp_mono hle) ha0) ?_
    rintro (h1 | h2)
    · exact Or.inl h1
    · exact Or.inr (lt_of_le_of_lt hle h2)

/-- Witness: C5 applied at the concrete rates `λ_home = 0.5`, `λ_away = 2`,
one on each side of the dampening boundary. -/
theorem predict_btts_range_mono_witness :
    (0 : ℝ) ≤ 0.5 ∧ (0 : ℝ) ≤ 2 ∧
    ((0 ≤ predict_btts 0.5 2 1.0 ∧ predict_btts 0.5 2 1.0 ≤ 1) ∧
     (∀ lh', (0.5 : ℝ) ≤ lh' → predict_btts 0.5 2 1.0 ≤ predict_btts lh' 2 1.0) ∧
     (∀ la', (2 : ℝ) ≤ la' → predict_btts 0.5 2 1.0 ≤ predict_btts 0.5 la' 1.0)) :=
  ⟨by norm_num, by norm_num,
    predict_btts_range_mono 0.5 2 (by norm_num) (by norm_num)⟩

end ScoringClaims

section FeatureClaims

/-- The Poisson over-2.5 probability at zero rates: the joint mass sits
entirely on (0,0), so the over probability is 0. -/
lemma poisson_over_x_zero_zero : poisson_over_x 0 0 (5 / 2 : ℝ) = 0 := by
  have hfloor : (⌊(5 / 2 : ℝ)⌋ : ℤ) = 2 := by
    rw [Int.floor_eq_iff] <;> norm_num
  have h4 : Int.toNat ⌊(5 / 2 : ℝ)⌋ + 2 = 4 := by rw [hfloor]; rfl
  rw [poisson_over_x, h4]
  norm_num [Finset.sum_range_succ, poissonPmf, Nat.factorial]

/-- Claim C6: for empty home and away history sequences and any team names,
league and kickoff time, feature extraction returns (without any division
error — every division guarded by an empty window is replaced by its
default) the full 36-field vector whose fields all equal their documented
neutral defaults: 0.0 for averages, trends, rates and the Poisson block,
0.5 for the head-to-head both-teams-score rate, 2.75 for the head-to-head
goal average, the league average for `league_avg_goals` (plus the constants
`home_advantage = 1.0` and 7 rest days); the vector has exactly 36 fields. -/
theorem extract_features_empty (home_team away_team league kick : String) :
    extract_features home_team away_team [] [] league kick =
      { home_goals_avg_5 := 0, away_goals_avg_5 := 0, home_goals_avg_10 := 0,
        away_goals_avg_10 := 0, home_points_form_3 := 0, away_points_form_3 := 0,
        home_points_form_5 := 0, home_attack_strength := 0,
        away_attack_strength := 0, home_defense_strength := 0,
        away_defense_strength := 0, home_goals_trend := 0, away_goals_trend := 0,
        home_conceded_trend := 0, away_conceded_trend := 0, home_advantage := 1.0,
        league_avg_goals := league_avg_lookup league, home_rest_days := 7,
        away_rest_days := 7, h2h_goals_avg := 2.75, h2h_btts_rate := 0.5,
        home_goal_diff := 0, away_goal_diff := 0, lambda_home := 0,
        lambda_away := 0, expected_total_goals := 0, poisson_over25 := 0,
        home_wins_pct := 0, away_wins_pct := 0, home_over25_rate := 0,
        away_over25_rate := 0, home_btts_rate := 0, away_btts_rate := 0,
        home_clean_sheet_rate := 0, away_clean_sheet_rate := 0,
        combined_form := 0 } ∧
    (extract_features home_team away_team [] [] league kick).toList.length = 36 := by
  constructor
  · norm_num [extract_features, goals_avg, goalsFor, goals_conceded_avg,
      goalsAgainst, intMean, points_form, goal_difference, gdPairs,
      h2h_goals_avg, h2h_btts_rate, over_rate, btts_rate, win_rate,
      clean_sheet_rate, poisson_over_x_zero_zero, Features.mk.injEq]
  · rfl

/-- A match record whose final score is entirely missing. -/
def mMissing : MatchRec :=
  { homeName := some "T", awayName := some "U",
    scoreHome := none, scoreAway := none }

/-- Counterexample to claim C2: a missing-score match is NOT excluded from
every aggregate — `_clean_sheet_rate` counts it both in the numerator (its
missing scores default to 0, so it counts as a clean sheet, i.e. as a 0–0
result) and in the denominator: one missing-score match alone yields rate 1,
while exclusion would leave the empty-window default 0. -/
theorem missing_score_excluded_cex :
    clean_sheet_rate [mMissing] "T" = 1 ∧
    clean_sheet_rate ([] : List MatchRec) "T" = 0 := by
  constructor
  · norm_num [clean_sheet_rate, isCleanSheet, mMissing]
  · norm_num [clean_sheet_rate]

/-- A copy of a match record with both score components set to 0. -/
def zeroScore (m : MatchRec) : MatchRec :=
  { m with scoreHome := some 0, scoreAway := some 0 }

/-- Claim C2 (amended): a match with a missing final score is fully excluded
from the goal/points aggregates — goal average, conceded average, points
form, goal difference and head-to-head goal average — but the win-rate,
over-threshold, both-teams-score, clean-sheet and head-to-head
both-teams-score statistics instead treat it exactly as a 0–0 result: it
stays in the denominator (and, for clean sheets, in the numerator). -/
theorem missing_score_amended (l : List MatchRec) (t h a : String) (th : ℝ)
    (m : MatchRec) (hm : m.scoreHome = none ∧ m.scoreAway = none) :
    goals_avg (m :: l) t = goals_avg l t ∧
    goals_conceded_avg (m :: l) t = goals_conceded_avg l t ∧
    points_form (m :: l) t = points_form l t ∧
    goal_difference (m :: l) t = goal_difference l t ∧
    h2h_goals_avg h a (m :: l) = h2h_goals_avg h a l ∧
    win_rate (m :: l) t = win_rate (zeroScore m :: l) t ∧
    over_rate (m :: l) th = over_rate (zeroScore m :: l) th ∧
    btts_rate (m :: l) t = btts_rate (zeroScore m :: l) t ∧
    clean_sheet_rate (m :: l) t = clean_sheet_rate (zeroScore m :: l) t ∧
    h2h_btts_rate h a (m :: l) = h2h_btts_rate h a (zeroScore m :: l) := by
  obtain ⟨h1, h2⟩ := hm
  refine ⟨?_, ?_, ?_, ?_, ?_, ?_, ?_, ?_, ?_, ?_⟩
  · simp [goals_avg, goalsFor, h1, h2]
  · simp [goals_conceded_avg, goalsAgainst, h1, h2]
  · simp [points_form, matchPoints, h1, h2]
  · simp [goal_difference, gdPairs, h1, h2]
  · by_cases hh : isH2H m h a
    · simp [h2h_goals_avg, List.filter_cons, hh, List.filterMap_cons, h1, h2]
    · simp [h2h_goals_avg, List.filter_cons, hh]
  · simp [win_rate, List.filter_cons, isWin, zeroScore, h1, h2]
  · simp only [over_rate, List.filter_cons, zeroScore, h1, h2]
    norm_num
    split_ifs <;> simp
  · simp [btts_rate, List.filter_cons, zeroScore, h1, h2]
  · simp [clean_sheet_rate, List.filter_cons, isCleanSheet, zeroScore, h1, h2]
  · have hiso : isH2H (zeroScore m) h a = isH2H m h a := by
      simp [isH2H, zeroScore]
    simp only [h2h_btts_rate, List.filter_cons, hiso]
    by_cases hh : isH2H m h a
    · simp [hh, h1, h2, zeroScore, List.filter_cons]
    · simp [hh]

/-- Witness: C2 (amended) at the concrete missing-score match over the empty
tail. -/
theorem missing_score_amended_witness :
    (mMissing.scoreHome = none ∧ mMissing.scoreAway = none) ∧
    (goals_avg [mMissing] "T" = goals_avg [] "T" ∧
     goals_conceded_avg [mMissing] "T" = goals_conceded_avg [] "T" ∧
     points_form [mMissing] "T" = points_form [] "T" ∧
     goal_difference [mMissing] "T" = goal_difference [] "T" ∧
     h2h_goals_avg "T" "U" [mMissing] = h2h_goals_avg "T" "U" [] ∧
     win_rate [mMissing] "T" = win_rate [zeroScore mMissing] "T" ∧
     over_rate [mMissing] 2.5 = over_rate [zeroScore mMissing] 2.5 ∧
     btts_rate [mMissing] "T" = btts_rate [zeroScore mMissing] "T" ∧
     clean_sheet_rate [mMissing] "T" = clean_sheet_rate [zeroScore mMissing] "T" ∧
     h2h_btts_rate "T" "U" [mMissing] = h2h_btts_rate "T" "U" [zeroScore mMissing]) :=
  ⟨⟨rfl, rfl⟩, missing_score_amended [] "T" "T" "U" 2.5 mMissing ⟨rfl, rfl⟩⟩

end FeatureClaims

section SchedulerLemmas

/-- Persisted-event occurrences distribute over trace concatenation. -/
lemma persistedCount_append (evs l : List Ev) (fid : Int) :
    persistedCount (evs ++ l) fid = persistedCount evs fid + persistedCount l fid := by
  simp [persistedCount, List.filter_append]

/-- Scored-event occurrences distribute over trace concatenation. -/
lemma scoredCount_append (evs l : List Ev) (fid : Int) :
    scoredCount (evs ++ l) fid = scoredCount evs fid + scoredCount l fid := by
  simp [scoredCount, List.filter_append]

/-- An error-log event is neither a scoring nor a persist event. -/
lemma counts_errLogged (g fid : Int) :
    persistedCount [Ev.errLogged g] fid = 0 ∧ scoredCount [Ev.errLogged g] fid = 0 := by
  simp [persistedCount, scoredCount]

/-- A scoring event is not a persist event. -/
lemma persistedCount_scored (g fid : Int) :
    persistedCount [Ev.scored g] fid = 0 := by
  simp [persistedCount]

/-- Persist-event count of a single persist event. -/
lemma persistedCount_persisted (g fid : Int) :
    persistedCount [Ev.persisted g] fid = if g = fid then 1 else 0 := by
  by_cases h : g = fid <;> simp [persistedCount, h]

/-- After `save_prediction` the saved fixture identifier exists. -/
lemma prediction_exists_save_self (db : DB) (now : String) (p : Prediction) :
    prediction_exists (save_prediction db now p) p.fixture_id = true := by
  simp [prediction_exists, save_prediction, predRowOf]

/-- `save_prediction` leaves the existence of every other fixture identifier
unchanged (the unique-key replacement only removes rows of its own id). -/
lemma prediction_exists_save_other (db : DB) (now : String) (p : Prediction)
    (fid : Int) (h : fid ≠ p.fixture_id) :
    prediction_exists (save_prediction db now p) fid = prediction_exists db fid := by
  rw [Bool.eq_iff_iff]
  simp only [prediction_exists, save_prediction, List.any_append, List.any_eq_true,
    List.mem_filter, decide_eq_true_eq, Bool.or_eq_true, List.mem_singleton]
  constructor
  · rintro (⟨r, ⟨hr, _⟩, hfid⟩ | ⟨r, rfl, hfid⟩)
    · exact ⟨r, hr, hfid⟩
    · exact absurd hfid.symm (by simpa [predRowOf] using h)
  · rintro ⟨r, hr, hfid⟩
    exact Or.inl ⟨r, ⟨hr, by simp only [hfid, ne_eq, decide_eq_true_eq]; exact h⟩, hfid⟩

/-- Case analysis for `_predict_match`: it skips on an empty history without
scoring, raises before scoring when no model is loaded, or scores the fixture
exactly once and returns either no prediction (threshold filter) or a
prediction carrying the fixture's identifier. -/
lemma predictMatch_cases (mon : Monitor) (lg : String) (m : UpFixture) :
    predictMatch mon lg m = (.ok none, []) ∨
    predictMatch mon lg m = (.error .modelNotLoaded, []) ∨
    predictMatch mon lg m = (.ok none, [Ev.scored m.fid]) ∨
    (∃ p : Prediction, p.fixture_id = m.fid ∧
      predictMatch mon lg m = (.ok (some p), [Ev.scored m.fid])) := by
  simp only [predictMatch]
  by_cases hh : mon.fetchHist m.homeId = [] ∨ mon.fetchHist m.awayId = []
  · rw [if_pos hh]
    exact Or.inl rfl
  · rw [if_neg hh]
    rcases hmod : mon.model with _ | f
    · simp [predict_over25]
    · simp only [predict_over25]
      split
      · exact Or.inr (Or.inr (Or.inl rfl))
      · exact Or.inr (Or.inr (Or.inr ⟨_, rfl, rfl⟩))

/-- With no loaded model, `_predict_match` either skips on an empty history
or raises `modelNotLoaded`; it never scores. -/
lemma predictMatch_modelNone (mon : Monitor) (lg : String) (m : UpFixture)
    (h : mon.model = none) :
    predictMatch mon lg m = (.ok none, []) ∨
    predictMatch mon lg m = (.error .modelNotLoaded, []) := by
  simp only [predictMatch, h, predict_over25]
  split
  next => exact Or.inl rfl
  next => exact Or.inr rfl

/-- Case analysis for one fixture iteration: it leaves the accumulator
unchanged (filtered out, past kickoff, deduplicated or skipped), logs one
error, scores without persisting, or scores and persists a prediction for
its own fixture identifier after a negative dedup check. -/
lemma processFixture_cases (mon : Monitor) (lg : String) (acc : DB × List Ev)
    (m : UpFixture) :
    processFixture mon lg acc m = acc ∨
    processFixture mon lg acc m = (acc.1, acc.2 ++ [Ev.errLogged m.fid]) ∨
    processFixture mon lg acc m = (acc.1, acc.2 ++ [Ev.scored m.fid]) ∨
    (∃ p : Prediction, p.fixture_id = m.fid ∧
      prediction_exists acc.1 m.fid = false ∧
      processFixture mon lg acc m =
        (save_prediction acc.1 mon.now p,
          acc.2 ++ [Ev.scored m.fid] ++ [Ev.persisted p.fixture_id])) := by
  obtain ⟨db, evs⟩ := acc
  simp only [processFixture]
  by_cases h1 : m.status = "SCHEDULED" ∨ m.status = "TIMED"
  swap
  · rw [if_pos h1]
    exact Or.inl rfl
  rw [if_neg (not_not_intro h1)]
  by_cases h2 : m.parseOk
  swap
  · rw [if_pos h2]
    exact Or.inr (Or.inl rfl)
  rw [if_neg (not_not_intro h2)]
  by_cases h3 : m.kickoffFuture
  swap
  · rw [if_pos h3]
    exact Or.inl rfl
  rw [if_neg (not_not_intro h3)]
  by_cases h4 : prediction_exists db m.fid
  · rw [if_pos h4]
    exact Or.inl rfl
  · rw [if_neg h4]
    rcases predictMatch_cases mon lg m with hc | hc | hc | ⟨p, hp, hc⟩ <;> rw [hc]
    · exact Or.inl (by simp)
    · exact Or.inr (Or.inl (by simp))
    · exact Or.inr (Or.inr (Or.inl rfl))
    · exact Or.inr (Or.inr (Or.inr ⟨p, hp, by simpa using h4, by simp⟩))

/-- With no loaded model, one fixture iteration never changes the ledger and
at most logs an error. -/
lemma processFixture_modelNone (mon : Monitor) (lg : String) (acc : DB × List Ev)
    (m : UpFixture) (h : mon.model = none) :
    processFixture mon lg acc m = acc ∨
    processFixture mon lg acc m = (acc.1, acc.2 ++ [Ev.errLogged m.fid]) := by
  obtain ⟨db, evs⟩ := acc
  simp only [processFixture]
  by_cases h1 : m.status = "SCHEDULED" ∨ m.status = "TIMED"
  swap
  · rw [if_pos h1]
    exact Or.inl rfl
  rw [if_neg (not_not_intro h1)]
  by_cases h2 : m.parseOk
  swap
  · rw [if_pos h2]
    exact Or.inr rfl
  rw [if_neg (not_not_intro h2)]
  by_cases h3 : m.kickoffFuture
  swap
  · rw [if_pos h3]
    exact Or.inl rfl
  rw [if_neg (not_not_intro h3)]
  by_cases h4 : prediction_exists db m.fid
  · rw [if_pos h4]
    exact Or.inl rfl
  · rw [if_neg h4]
    rcases predictMatch_modelNone mon lg m h with hpm | hpm <;> rw [hpm]
    · exact Or.inl (by simp)
    · exact Or.inr (by simp)

/-- A failing fixture — malformed record or an empty (failed) history fetch —
leaves the ledger untouched and at most logs an error. -/
lemma processFixture_fail (mon : Monitor) (lg : String) (acc : DB × List Ev)
    (bad : UpFixture)
    (hfail : bad.parseOk = false ∨ mon.fetchHist bad.homeId = [] ∨
      mon.fetchHist bad.awayId = []) :
    processFixture mon lg acc bad = acc ∨
    processFixture mon lg acc bad = (acc.1, acc.2 ++ [Ev.errLogged bad.fid]) := by
  obtain ⟨db, evs⟩ := acc
  simp only [processFixture]
  by_cases h1 : bad.status = "SCHEDULED" ∨ bad.status = "TIMED"
  swap
  · rw [if_pos h1]
    exact Or.inl rfl
  rw [if_neg (not_not_intro h1)]
  by_cases h2 : bad.parseOk
  swap
  · rw [if_pos h2]
    exact Or.inr rfl
  rw [if_neg (not_not_intro h2)]
  by_cases h3 : bad.kickoffFuture
  swap
  · rw [if_pos h3]
    exact Or.inl rfl
  rw [if_neg (not_not_intro h3)]
  by_cases h4 : prediction_exists db bad.fid
  · rw [if_pos h4]
    exact Or.inl rfl
  · rw [if_neg h4]
    have hfetch : mon.fetchHist bad.homeId = [] ∨ mon.fetchHist bad.awayId = [] := by
      rcases hfail with hp | hf
      · rw [hp] at h2
        exact absurd h2 (by simp)
      · exact hf
    simp only [predictMatch]
    rw [if_pos hfetch]
    exact Or.inl (by simp)

/-- One fixture iteration only appends to the event trace, and neither its
ledger effect nor the appended events depend on the already-collected trace. -/
lemma processFixture_shift (mon : Monitor) (lg : String) (db : DB) (evs : List Ev)
    (m : UpFixture) :
    processFixture mon lg (db, evs) m =
      ((processFixture mon lg (db, []) m).1,
        evs ++ (processFixture mon lg (db, []) m).2) := by
  simp only [processFixture]
  by_cases h1 : m.status = "SCHEDULED" ∨ m.status = "TIMED"
  swap
  · rw [if_pos h1, if_pos h1]
    simp
  rw [if_neg (not_not_intro h1), if_neg (not_not_intro h1)]
  by_cases h2 : m.parseOk
  swap
  · rw [if_pos h2, if_pos h2]
    simp
  rw [if_neg (not_not_intro h2), if_neg (not_not_intro h2)]
  by_cases h3 : m.kickoffFuture
  swap
  · rw [if_pos h3, if_pos h3]
    simp
  rw [if_neg (not_not_intro h3), if_neg (not_not_intro h3)]
  by_cases h4 : prediction_exists db m.fid
  · rw [if_pos h4, if_pos h4]
    simp
  · rw [if_neg h4, if_neg h4]
    rcases predictMatch_cases mon lg m with hc | hc | hc | ⟨p, hp, hc⟩ <;>
      rw [hc] <;> simp

/-- The fixture loop splits over list concatenation. -/
lemma scanMatches_append (mon : Monitor) (lg : String) :
    ∀ (l1 l2 : List UpFixture) (acc : DB × List Ev),
      scanMatches mon lg acc (l1 ++ l2) =
        scanMatches mon lg (scanMatches mon lg acc l1) l2
  | [], _, _ => rfl
  | _ :: ms, l2, acc => by
    simp only [List.cons_append, scanMatches]
    exact scanMatches_append mon lg ms l2 _

/-- The fixture loop only appends to the trace; its ledger effect and the
appended events do not depend on the trace accumulated so far. -/
lemma scanMatches_shift (mon : Monitor) (lg : String) :
    ∀ (ms : List UpFixture) (db : DB) (evs : List Ev),
      scanMatches mon lg (db, evs) ms =
        ((scanMatches mon lg (db, []) ms).1,
          evs ++ (scanMatches mon lg (db, []) ms).2)
  | [], db, evs => by simp [scanMatches]
  | m :: ms, db, evs => by
    simp only [scanMatches]
    rcases hpf : processFixture mon lg (db, []) m with ⟨db1, evs1⟩
    rw [processFixture_shift mon lg db evs m, hpf]
    dsimp only
    rw [scanMatches_shift mon lg ms db1 (evs ++ evs1),
      scanMatches_shift mon lg ms db1 evs1]
    simp

/-- Any reflexive-transitive relation preserved by one fixture iteration is
preserved by the fixture loop, the competition loop and by consecutive
cycles. -/
lemma scan_fold_rel (mon : Monitor) {R : (DB × List Ev) → (DB × List Ev) → Prop}
    (hrefl : ∀ a, R a a) (htrans : ∀ a b c, R a b → R b c → R a c)
    (hstep : ∀ lg acc m, R acc (processFixture mon lg acc m)) :
    (∀ lg ms acc, R acc (scanMatches mon lg acc ms)) ∧
    (∀ comps acc, R acc (scanComps mon acc comps)) ∧
    (∀ cycles acc, R acc (runCycles mon acc cycles)) := by
  have hm : ∀ lg ms acc, R acc (scanMatches mon lg acc ms) := by
    intro lg ms
    induction ms with
    | nil => exact fun acc => hrefl acc
    | cons m ms ih =>
      exact fun acc => htrans _ _ _ (hstep lg acc m) (ih (processFixture mon lg acc m))
  have hcs : ∀ comps acc, R acc (scanComps mon acc comps) := by
    intro comps
    induction comps with
    | nil => exact fun acc => hrefl acc
    | cons c rest ih =>
      obtain ⟨lg, ms⟩ := c
      exact fun acc => htrans _ _ _ (hm lg ms acc) (ih (scanMatches mon lg acc ms))
  refine ⟨hm, hcs, ?_⟩
  intro cycles
  induction cycles with
  | nil => exact fun acc => hrefl acc
  | cons c cs ih =>
    exact fun acc => htrans _ _ _ (hcs c acc) (ih (scanComps mon acc c))

/-- One fixture iteration never decreases "already persisted or still
persistable": the number of persist events for a fixture identifier plus the
budget left by the dedup check is non-increasing. -/
lemma processFixture_persist_step (mon : Monitor) (lg : String)
    (acc : DB × List Ev) (m : UpFixture) (fid : Int) :
    persistedCount (processFixture mon lg acc m).2 fid +
        (if prediction_exists (processFixture mon lg acc m).1 fid = true then 0 else 1) ≤
      persistedCount acc.2 fid +
        (if prediction_exists acc.1 fid = true then 0 else 1) := by
  rcases processFixture_cases mon lg acc m with hc | hc | hc | ⟨p, hpfid, hnex, hc⟩ <;>
    rw [hc]
  · dsimp only
    have h0 : persistedCount [Ev.errLogged m.fid] fid = 0 := by simp [persistedCount]
    rw [persistedCount_append, h0]
    simp
  · dsimp only
    have h0 : persistedCount [Ev.scored m.fid] fid = 0 := by simp [persistedCount]
    rw [persistedCount_append, h0]
    simp
  · dsimp only
    have h1 : persistedCount ([Ev.scored m.fid] ++ [Ev.persisted p.fixture_id]) fid
        = if p.fixture_id = fid then 1 else 0 := by
      by_cases hf : p.fixture_id = fid <;> simp [persistedCount, hf]
    rw [List.append_assoc, persistedCount_append, h1]
    by_cases hf : p.fixture_id = fid
    · subst hf
      rw [if_pos rfl, prediction_exists_save_self, hpfid, hnex]
      simp
    · rw [if_neg hf,
        prediction_exists_save_other acc.1 mon.now p fid (fun hcon => hf hcon.symm)]
      simp

/-- A fixture whose identifier already has a ledger prediction is skipped:
the iteration reaches neither feature extraction nor scoring nor persistence,
leaving the ledger unchanged (a malformed record still logs its parse error,
which happens before the dedup check). -/
lemma processFixture_existing_skip (mon : Monitor) (lg : String) (db : DB)
    (evs : List Ev) (m : UpFixture) (h : prediction_exists db m.fid = true) :
    processFixture mon lg (db, evs) m = (db, evs) ∨
    processFixture mon lg (db, evs) m = (db, evs ++ [Ev.errLogged m.fid]) := by
  simp only [processFixture]
  by_cases h1 : m.status = "SCHEDULED" ∨ m.status = "TIMED"
  swap
  · rw [if_pos h1]
    exact Or.inl rfl
  rw [if_neg (not_not_intro h1)]
  by_cases h2 : m.parseOk
  swap
  · rw [if_pos h2]
    exact Or.inr rfl
  rw [if_neg (not_not_intro h2)]
  by_cases h3 : m.kickoffFuture
  swap
  · rw [if_pos h3]
    exact Or.inl rfl
  rw [if_neg (not_not_intro h3)]
  rw [if_pos h]
  exact Or.inl rfl

end SchedulerLemmas

section SchedulerClaims

/-- A history fetch that always fails (the per-team fetch swallows transport
errors and returns an empty list). -/
def fetch0 : Int → List MatchRec := fun _ => []

/-- A finished 1–1 match used as concrete history. -/
def histMatch0 : MatchRec :=
  { homeName := some "H", awayName := some "A",
    scoreHome := some 1, scoreAway := some 1 }

/-- A history fetch returning one finished match for every team. -/
def fetch1 : Int → List MatchRec := fun _ => [histMatch0]

/-- A constant black-box model assigning probability 0. -/
def probModel0 : Features → ℝ := fun _ => 0

/-- A constant black-box model assigning probability 1. -/
def probModel1 : Features → ℝ := fun _ => 1

/-- A monitor whose model failed to load. -/
noncomputable def monNone : Monitor :=
  { model := none, over25Min := 0.65, bttsMin := 0.6, fetchHist := fetch0, now := "t" }

/-- A well-formed scheduled future fixture with identifier 1. -/
def fix1 : UpFixture :=
  { fid := 1, status := "SCHEDULED", parseOk := true, kickoffFuture := true,
    homeId := 1, awayId := 2, homeName := "H", awayName := "A", utcDate := "d" }

/-- A malformed scheduled fixture (its record fails to parse). -/
def badFix : UpFixture :=
  { fid := 9, status := "SCHEDULED", parseOk := false, kickoffFuture := true,
    homeId := 1, awayId := 2, homeName := "H", awayName := "A", utcDate := "d" }

/-- Claim C7: when one fixture's processing fails — its history fetch fails
(returns empty) or its record is malformed — the scan cycle still processes
all remaining fixtures exactly as it would without the failed fixture (same
resulting ledger), and the failed fixture contributes no persist and no
scoring event, so no prediction is persisted for it. -/
theorem cycle_survives_fixture_failure (mon : Monitor) (lg : String) (db : DB)
    (evs : List Ev) (pre post : List UpFixture) (bad : UpFixture)
    (hfail : bad.parseOk = false ∨ mon.fetchHist bad.homeId = [] ∨
      mon.fetchHist bad.awayId = []) :
    (scanMatches mon lg (db, evs) (pre ++ bad :: post)).1 =
      (scanMatches mon lg (db, evs) (pre ++ post)).1 ∧
    ∀ g, persistedCount (scanMatches mon lg (db, evs) (pre ++ bad :: post)).2 g =
           persistedCount (scanMatches mon lg (db, evs) (pre ++ post)).2 g ∧
         scoredCount (scanMatches mon lg (db, evs) (pre ++ bad :: post)).2 g =
           scoredCount (scanMatches mon lg (db, evs) (pre ++ post)).2 g := by
  rcases hacc : scanMatches mon lg (db, evs) pre with ⟨db1, evs1⟩
  have hL : scanMatches mon lg (db, evs) (pre ++ bad :: post) =
      scanMatches mon lg (processFixture mon lg (db1, evs1) bad) post := by
    rw [scanMatches_append, hacc]
    simp only [scanMatches]
  have hR : scanMatches mon lg (db, evs) (pre ++ post) =
      scanMatches mon lg (db1, evs1) post := by
    rw [scanMatches_append, hacc]
  rcases processFixture_fail mon lg (db1, evs1) bad hfail with hb | hb
  · rw [hL, hb, hR]
    exact ⟨rfl, fun g => ⟨rfl, rfl⟩⟩
  · rw [hL, hb, hR]
    dsimp only
    rw [scanMatches_shift mon lg post db1 (evs1 ++ [Ev.errLogged bad.fid]),
      scanMatches_shift mon lg post db1 evs1]
    refine ⟨rfl, fun g => ?_⟩
    dsimp only
    have h0p : persistedCount [Ev.errLogged bad.fid] g = 0 := by simp [persistedCount]
    have h0s : scoredCount [Ev.errLogged bad.fid] g = 0 := by simp [scoredCount]
    constructor
    · rw [List.append_assoc, persistedCount_append, persistedCount_append,
        persistedCount_append, h0p]
      omega
    · rw [List.append_assoc, scoredCount_append, scoredCount_append,
        scoredCount_append, h0s]
      omega

/-- Witness: C7 at a concrete malformed fixture as the only fixture of the
cycle over the fresh database. -/
theorem cycle_survives_fixture_failure_witness :
    (badFix.parseOk = false ∨ monNone.fetchHist badFix.homeId = [] ∨
      monNone.fetchHist badFix.awayId = []) ∧
    ((scanMatches monNone "L" (emptyDB, []) ([] ++ badFix :: [])).1 =
       (scanMatches monNone "L" (emptyDB, []) ([] ++ [])).1 ∧
     ∀ g, persistedCount (scanMatches monNone "L" (emptyDB, []) ([] ++ badFix :: [])).2 g =
            persistedCount (scanMatches monNone "L" (emptyDB, []) ([] ++ [])).2 g ∧
          scoredCount (scanMatches monNone "L" (emptyDB, []) ([] ++ badFix :: [])).2 g =
            scoredCount (scanMatches monNone "L" (emptyDB, []) ([] ++ [])).2 g) :=
  ⟨Or.inl rfl,
    cycle_survives_fixture_failure monNone "L" emptyDB [] [] [] badFix (Or.inl rfl)⟩

/-- A monitor with a loaded constant-0 model and an over-2.5 threshold of 1,
so every fixture is scored but never accepted. -/
noncomputable def monCex : Monitor :=
  { model := some probModel0, over25Min := 1, bttsMin := 0,
    fetchHist := fetch1, now := "t" }

/-- One scan cycle consisting of a single competition with a single fixture. -/
def cycleCex : List (String × List UpFixture) := [("L", [fix1])]

/-- Scoring fixture 1 under `monCex`: the model is applied (a scoring event
is emitted) and the prediction is rejected by the threshold filter. -/
lemma predictMatch_monCex :
    predictMatch monCex "L" fix1 = (.ok none, [Ev.scored 1]) := by
  simp only [predictMatch, monCex, fetch1, fix1]
  rw [if_neg (by simp [histMatch0])]
  simp only [predict_over25, probModel0]
  rw [if_pos (by norm_num)]

/-- Processing fixture 1 under `monCex` over the fresh database leaves the
ledger empty and emits one scoring event. -/
lemma processFixture_monCex :
    processFixture monCex "L" (emptyDB, []) fix1 = (emptyDB, [Ev.scored 1]) := by
  simp only [processFixture]
  rw [if_neg (by simp [fix1])]
  rw [if_neg (by simp [fix1])]
  rw [if_neg (by simp [fix1])]
  rw [if_neg (by simp [fix1, prediction_exists, emptyDB])]
  rw [predictMatch_monCex]
  simp [fix1]

/-- Counterexample to claim C8: a fixture identifier can be scored twice.
A fixture whose over-2.5 probability stays below the configured minimum is
never persisted, so the dedup check never fires for it and the very same
fixture is scored again in the next cycle: this two-cycle run scores fixture
1 twice. -/
theorem rescored_fixture_cex :
    scoredCount (runCycles monCex (emptyDB, []) [cycleCex, cycleCex]).2 1 = 2 := by
  have h2 : processFixture monCex "L" (emptyDB, [Ev.scored 1]) fix1 =
      (emptyDB, [Ev.scored 1, Ev.scored 1]) := by
    rw [processFixture_shift monCex "L" emptyDB [Ev.scored 1] fix1,
      processFixture_monCex]
    rfl
  have hc1 : scanComps monCex (emptyDB, []) cycleCex = (emptyDB, [Ev.scored 1]) := by
    simp only [cycleCex, scanComps, scanMatches]
    rw [processFixture_monCex]
  have hc2 : scanComps monCex (emptyDB, [Ev.scored 1]) cycleCex =
      (emptyDB, [Ev.scored 1, Ev.scored 1]) := by
    simp only [cycleCex, scanComps, scanMatches]
    rw [h2]
  rw [show runCycles monCex (emptyDB, []) [cycleCex, cycleCex] =
      scanComps monCex (scanComps monCex (emptyDB, []) cycleCex) cycleCex from rfl]
  rw [hc1, hc2]
  rfl

/-- Claim C8 (amended): a fixture whose identifier already has a ledger
prediction is skipped before feature extraction, scoring or persistence (at
most its parse error, raised before the dedup check, is logged), and across
every run no fixture identifier is ever persisted more than once — none at
all when it already exists in the ledger. A fixture that was scored but
never persisted (threshold-rejected) may however be scored again in a later
cycle. -/
theorem dedup_skip_and_persist_at_most_once (mon : Monitor) (lg : String)
    (db : DB) (evs : List Ev) (m : UpFixture) (acc : DB × List Ev)
    (cycles : List (List (String × List UpFixture))) (fid : Int) :
    (prediction_exists db m.fid = true →
      processFixture mon lg (db, evs) m = (db, evs) ∨
      processFixture mon lg (db, evs) m = (db, evs ++ [Ev.errLogged m.fid])) ∧
    persistedCount (runCycles mon acc cycles).2 fid ≤
      persistedCount acc.2 fid +
        (if prediction_exists acc.1 fid = true then 0 else 1) := by
  constructor
  · exact processFixture_existing_skip mon lg db evs m
  · have hR := (@scan_fold_rel mon
      (fun a b => ∀ f : Int,
        persistedCount b.2 f + (if prediction_exists b.1 f = true then 0 else 1) ≤
          persistedCount a.2 f + (if prediction_exists a.1 f = true then 0 else 1))
      (fun _ _ => Nat.le_refl _)
      (fun _ _ _ hab hbc f => le_trans (hbc f) (hab f))
      (fun lg' acc' m' f => processFixture_persist_step mon lg' acc' m' f)).2.2
    exact le_trans (Nat.le_add_right _ _) (hR cycles acc fid)

/-- Witness: C8 (amended) at a ledger already holding fixture 1, the
well-formed fixture 1, and the empty run. -/
theorem dedup_skip_and_persist_at_most_once_witness :
    prediction_exists (save_prediction emptyDB "t0" predA) fix1.fid = true ∧
    (processFixture monNone "L" (save_prediction emptyDB "t0" predA, []) fix1 =
        (save_prediction emptyDB "t0" predA, []) ∨
     processFixture monNone "L" (save_prediction emptyDB "t0" predA, []) fix1 =
        (save_prediction emptyDB "t0" predA, [] ++ [Ev.errLogged fix1.fid])) ∧
    persistedCount (runCycles monNone (emptyDB, []) []).2 1 ≤
      persistedCount (emptyDB, ([] : List Ev)).2 1 +
        (if prediction_exists (emptyDB, ([] : List Ev)).1 1 = true then 0 else 1) :=
  ⟨rfl,
   (dedup_skip_and_persist_at_most_once monNone "L"
      (save_prediction emptyDB "t0" predA) [] fix1 (emptyDB, []) [] 1).1 rfl,
   (dedup_skip_and_persist_at_most_once monNone "L"
      (save_prediction emptyDB "t0" predA) [] fix1 (emptyDB, []) [] 1).2⟩

/-- Claim C9: the configured both-teams-score minimum is read but never
compared against anything — varying it never changes any run of the
scheduler — and for a scored fixture the decision to return (and hence
persist) a prediction depends only on whether the over-2.5 probability
reaches its configured minimum. -/
theorem btts_threshold_unused (mon : Monitor) (x : ℝ) (acc : DB × List Ev)
    (cycles : List (List (String × List UpFixture))) :
    runCycles { mon with bttsMin := x } acc cycles = runCycles mon acc cycles ∧
    ∀ (lg : String) (m : UpFixture) (f : Features → ℝ), mon.model = some f →
      mon.fetchHist m.homeId ≠ [] → mon.fetchHist m.awayId ≠ [] →
      ((predictMatch mon lg m).1 = Except.ok none ↔
        f (extract_features m.homeName m.awayName (mon.fetchHist m.homeId)
            (mon.fetchHist m.awayId) lg m.utcDate) < mon.over25Min) := by
  constructor
  · have hstep : ∀ (lg' : String) (acc' : DB × List Ev) (m' : UpFixture),
        processFixture { mon with bttsMin := x } lg' acc' m' =
          processFixture mon lg' acc' m' := fun _ _ _ => rfl
    have hm : ∀ (lg' : String) (ms : List UpFixture) (acc' : DB × List Ev),
        scanMatches { mon with bttsMin := x } lg' acc' ms =
          scanMatches mon lg' acc' ms := by
      intro lg' ms
      induction ms with
      | nil => exact fun _ => rfl
      | cons m ms ih =>
        intro acc'
        simp only [scanMatches, hstep]
        exact ih _
    have hc : ∀ (comps : List (String × List UpFixture)) (acc' : DB × List Ev),
        scanComps { mon with bttsMin := x } acc' comps = scanComps mon acc' comps := by
      intro comps
      induction comps with
      | nil => exact fun _ => rfl
      | cons c rest ih =>
        obtain ⟨lg', ms⟩ := c
        intro acc'
        simp only [scanComps, hm]
        exact ih _
    have hr : ∀ (cycles' : List (List (String × List UpFixture)))
        (acc' : DB × List Ev),
        runCycles { mon with bttsMin := x } acc' cycles' = runCycles mon acc' cycles' := by
      intro cycles'
      induction cycles' with
      | nil => exact fun _ => rfl
      | cons c cs ih =>
        intro acc'
        simp only [runCycles, hc]
        exact ih _
    exact hr cycles acc
  · intro lg m f hf hh ha
    simp only [predictMatch]
    rw [if_neg (not_or.mpr ⟨hh, ha⟩), hf]
    simp only [predict_over25]
    by_cases hth : f (extract_features m.homeName m.awayName
        (mon.fetchHist m.homeId) (mon.fetchHist m.awayId) lg m.utcDate) <
        mon.over25Min
    · rw [if_pos hth]
      simpa using hth
    · rw [if_neg hth]
      simpa using hth

/-- A monitor with a loaded constant-1 model, threshold 0, and a one-match
history for every team. -/
noncomputable def mon1 : Monitor :=
  { model := some probModel1, over25Min := 0, bttsMin := 0,
    fetchHist := fetch1, now := "t" }

/-- Witness: C9 applied under `mon1` at fixture 1, whose hypotheses hold
concretely. -/
theorem btts_threshold_unused_witness :
    mon1.model = some probModel1 ∧ mon1.fetchHist fix1.homeId ≠ [] ∧
    mon1.fetchHist fix1.awayId ≠ [] ∧
    ((predictMatch mon1 "L" fix1).1 = Except.ok none ↔
      probModel1 (extract_features fix1.homeName fix1.awayName
        (mon1.fetchHist fix1.homeId) (mon1.fetchHist fix1.awayId) "L"
        fix1.utcDate) < mon1.over25Min) :=
  ⟨rfl, by simp [mon1, fetch1], by simp [mon1, fetch1],
    (btts_threshold_unused mon1 0 (emptyDB, []) []).2 "L" fix1 probModel1 rfl
      (by simp [mon1, fetch1]) (by simp [mon1, fetch1])⟩

/-- Counterexample to claim C1: with the model artifact absent, monitor
startup does not fail fast — the file-not-found error is caught inside
`load`, and `__init__` completes successfully with no model loaded. -/
theorem startup_absent_model_cex :
    monitorInit false probModel0 0 0 fetch0 "t" =
      Except.ok { model := none, over25Min := 0, bttsMin := 0,
                  fetchHist := fetch0, now := "t" } := rfl

/-- Claim C1 (amended): when the model artifact is absent at startup, `load`
catches the file-not-found error, records only the warning, and leaves the
model unloaded; initialisation succeeds and the monitor enters the loop,
where every cycle completes with an unchanged ledger and neither scores nor
persists any prediction (each fixture's scoring raises model-not-loaded,
which the per-fixture handler catches and logs). -/
theorem startup_absent_model_amended (artifact : Features → ℝ) (o b : ℝ)
    (fetch : Int → List MatchRec) (now : String) (mon : Monitor)
    (acc : DB × List Ev) (cycles : List (List (String × List UpFixture)))
    (h : mon.model = none) :
    monitorInit false artifact o b fetch now =
      Except.ok { model := none, over25Min := o, bttsMin := b,
                  fetchHist := fetch, now := now } ∧
    (loadModel false artifact).2 = [loadWarning] ∧
    ((runCycles mon acc cycles).1 = acc.1 ∧
     ∀ g, scoredCount (runCycles mon acc cycles).2 g = scoredCount acc.2 g ∧
          persistedCount (runCycles mon acc cycles).2 g = persistedCount acc.2 g) := by
  refine ⟨rfl, rfl, ?_⟩
  have hstep : ∀ (lg' : String) (acc' : DB × List Ev) (m' : UpFixture),
      (processFixture mon lg' acc' m').1 = acc'.1 ∧
      ∀ g, scoredCount (processFixture mon lg' acc' m').2 g = scoredCount acc'.2 g ∧
        persistedCount (processFixture mon lg' acc' m').2 g = persistedCount acc'.2 g := by
    intro lg' acc' m'
    rcases processFixture_modelNone mon lg' acc' m' h with hc | hc <;> rw [hc]
    · exact ⟨rfl, fun g => ⟨rfl, rfl⟩⟩
    · refine ⟨rfl, fun g => ⟨?_, ?_⟩⟩
      · rw [scoredCount_append]
        have h0 : scoredCount [Ev.errLogged m'.fid] g = 0 := by simp [scoredCount]
        rw [h0]
        exact Nat.add_zero _
      · rw [persistedCount_append]
        have h0 : persistedCount [Ev.errLogged m'.fid] g = 0 := by
          simp [persistedCount]
        rw [h0]
        exact Nat.add_zero _
  exact (@scan_fold_rel mon
    (fun a c => c.1 = a.1 ∧ ∀ g, scoredCount c.2 g = scoredCount a.2 g ∧
      persistedCount c.2 g = persistedCount a.2 g)
    (fun _ => ⟨rfl, fun _ => ⟨rfl, rfl⟩⟩)
    (fun _ _ _ hab hbc => ⟨hbc.1.trans hab.1, fun g =>
      ⟨(hbc.2 g).1.trans (hab.2 g).1, (hbc.2 g).2.trans (hab.2 g).2⟩⟩)
    (fun lg' acc' m' => hstep lg' acc' m')).2.2 cycles acc

/-- Witness: C1 (amended) at the concrete modelless monitor and the empty
run over the fresh database. -/
theorem startup_absent_model_amended_witness :
    monNone.model = none ∧
    (monitorInit false probModel0 0.65 0.6 fetch0 "t" =
       Except.ok { model := none, over25Min := 0.65, bttsMin := 0.6,
                   fetchHist := fetch0, now := "t" } ∧
     (loadModel false probModel0).2 = [loadWarning] ∧
     ((runCycles monNone (emptyDB, []) []).1 = (emptyDB, ([] : List Ev)).1 ∧
      ∀ g, scoredCount (runCycles monNone (emptyDB, []) []).2 g =
             scoredCount (emptyDB, ([] : List Ev)).2 g ∧
           persistedCount (runCycles monNone (emptyDB, []) []).2 g =
             persistedCount (emptyDB, ([] : List Ev)).2 g)) :=
  ⟨rfl, startup_absent_model_amended probModel0 0.65 0.6 fetch0 "t" monNone
    (emptyDB, []) [] rfl⟩

end SchedulerClaims

end HybridML
